import Mathlib

/-!
Verification of the daily-digest repository: a shallow embedding of
`src/collectors/github_collector.py`, `src/utils/ai_summarizer.py` and
`src/formatters/teams_formatter.py`, followed by theorems settling the
specification's claims about them.

Modelling conventions:
  - Python exceptions are `Except PyExn`; a `try/except` that logs and
    returns a neutral value becomes a `match` catching `.error`.
  - Python `None` for an optional field is `Option.none`; dictionaries with
    a fixed key set are structures whose optional keys are `Option` fields.
  - Timestamps are minutes since an arbitrary epoch (`Int`); the library
    calls that merely *format* a timestamp are modelled by carrying the
    formatted string in the input data, since no claim concerns formatting.
  - The GitHub platform is a `World` value supplying, per repository, the
    pull requests and commits the API would return; any API call can fail,
    which the world expresses by returning `.error`.
-/

namespace DailyDigest

/-- A Python exception, as far as the embedding distinguishes them. -/
inductive PyExn where
  | attributeError (msg : String)
  | apiError (msg : String)
deriving DecidableEq, Repr

/-- Python's substring test `needle in haystack`. -/
def pyInStr (needle haystack : String) : Bool :=
  (List.range (haystack.data.length + 1)).any fun i =>
    needle.data.isPrefixOf (haystack.data.drop i)

/-! ## Data records produced by the collector (spec §3) -/

/-- Pull-Request Record: one element of `get_open_prs()`'s result. -/
structure PrRecord where
  number : Nat
  title : String
  url : String
  author : String
  createdAt : String
  daysOpen : Int
  repository : String
  reviewers : List String
deriving DecidableEq, Repr

/-- Merge Record: one element of `get_recent_merges()`'s result. -/
structure MergeRecord where
  number : Nat
  title : String
  url : String
  author : String
  mergedAt : String
  repository : String
  mergedBy : String
deriving DecidableEq, Repr

/-- Urgent Commit Record: one element of `get_urgent_commits()`'s result. -/
structure CommitRecord where
  sha : String
  message : String
  url : String
  author : String
  date : String
  repository : String
deriving DecidableEq, Repr

/-- PR Analysis Record: `analyze_pr`'s non-empty result dictionary. -/
structure PrAnalysisRecord where
  prNumber : Nat
  repo : String
  title : String
  author : String
  analysis : String
  url : String
deriving DecidableEq, Repr

/-- Changed-File Entry as returned by the platform's file listing
(`file.patch` is `None` for files without a textual diff). -/
structure FileData where
  filename : String
  status : String
  additions : Nat
  deletions : Nat
  patch : Option String
deriving DecidableEq, Repr

/-- PR Diff Snapshot: the `diff_data` dictionary built by `analyze_pr`.
The key `"body"` is always present in that dictionary (set to `pr.body`),
so `body = none` models the key holding Python `None`. -/
structure DiffData where
  title : String
  body : Option String
  user : String
  createdAtDate : String
  files : List FileData
deriving DecidableEq, Repr

/-! ## The platform world consumed by the collector -/

/-- An open pull request as the platform reports it: `user = none` models
`pr.user` being `None`; `reviewRequests` models `pr.get_review_requests()`,
which may itself fail. -/
structure OpenPull where
  number : Nat
  title : String
  htmlUrl : String
  user : Option String
  createdAt : Int
  createdAtDate : String
  reviewRequests : Except PyExn (List String)
deriving Repr

/-- A closed pull request as the platform reports it for the merge scan. -/
structure MergedPull where
  number : Nat
  title : String
  htmlUrl : String
  user : Option String
  merged : Bool
  mergedAt : Option Int
  mergedAtStr : String
  mergedBy : Option String
deriving DecidableEq, Repr

/-- A commit as the platform reports it: `authorLogin = none` models a
commit with no linked platform account. -/
structure CommitInfo where
  sha : String
  message : String
  htmlUrl : String
  authorLogin : Option String
  commitAuthorName : String
  dateStr : String
deriving DecidableEq, Repr

/-- The detail view of one pull request, for `analyze_pr`. -/
structure PullDetail where
  title : String
  body : Option String
  user : Option String
  createdAtDate : String
  htmlUrl : String
  files : Except PyExn (List FileData)
deriving Repr

/-- One repository handle: each field is an API call that may fail. -/
structure RepoObj where
  openPulls : Except PyExn (List OpenPull)
  closedPulls : Except PyExn (List MergedPull)
  commitsSince : Int → Except PyExn (List CommitInfo)
  getPull : Nat → Except PyExn PullDetail

/-- The platform: `getRepo` models `client.get_repo(name)`. -/
structure World where
  getRepo : String → Except PyExn RepoObj

/-! ## The collector's configuration and construction -/

/-- The environment variables the collector reads (`os.getenv` yields
`none` for an unset variable). -/
structure Env where
  githubToken : Option String
  githubRepos : Option String
  enablePrAnalysis : Option String
deriving DecidableEq, Repr

/-- The state of a `GithubCollector` instance. `aiSummarizer` is the
collaborator slot `self.ai_summarizer`: when wired, it would map a diff
snapshot to an analysis text (`analyze_pr_diff`). `client = some ()`
models a successfully built platform client. -/
structure GithubCollector where
  githubToken : Option String
  repos : List String
  aiSummarizer : Option (DiffData → String)
  client : Option Unit

/-- `GithubCollector.__init__`: reads `GITHUB_TOKEN` and `GITHUB_REPOS`,
sets `self.ai_summarizer = None`, and builds the client only when the
token is a truthy (non-empty) string; `ctorOk = false` models
`Github(token)` raising, which `__init__` catches, leaving the client
unset. -/
def mkGithubCollector (env : Env) (ctorOk : Bool) : GithubCollector :=
  { githubToken := env.githubToken
    repos := (env.githubRepos.getD "").splitOn ","
    aiSummarizer := none
    client :=
      if (match env.githubToken with | some t => decide (t ≠ "") | none => false)
          && ctorOk
      then some () else none }

/-- The common guard `if not self.client or not self.repos or
self.repos == [""]` opening every list-collection operation. -/
def disabledGuard (c : GithubCollector) : Prop :=
  c.client = none ∨ c.repos = [] ∨ c.repos = [""]

instance (c : GithubCollector) : Decidable (disabledGuard c) := by
  unfold disabledGuard; infer_instance

/-! ## Collector operations -/

/-- The record `get_open_prs` builds for one open pull request; the
per-PR reviewer fetch is guarded by its own `try/except` that degrades
to no reviewers. -/
def openPrRecordOf (repoName : String) (now : Int) (pr : OpenPull) : PrRecord :=
  { number := pr.number
    title := pr.title
    url := pr.htmlUrl
    author := pr.user.getD "Unknown"
    createdAt := pr.createdAtDate
    daysOpen := (now - pr.createdAt).fdiv 1440
    repository := repoName
    reviewers := match pr.reviewRequests with | .ok rs => rs | .error _ => [] }

/-- The body of `get_open_prs`'s `try:` block: iterate the configured
repositories, skipping blank names, collecting every open PR. -/
def getOpenPrsTry (c : GithubCollector) (w : World) (now : Int) :
    Except PyExn (List PrRecord) :=
  c.repos.foldlM (fun acc repoName =>
    let rn := repoName.trim
    if rn = "" then pure acc
    else do
      let repo ← w.getRepo rn
      let pulls ← repo.openPulls
      pure (acc ++ pulls.map (openPrRecordOf rn now))) []

/-- `get_open_prs`: guard, then the `try:` body with every failure caught
and converted to the empty list. -/
def getOpenPrs (c : GithubCollector) (w : World) (now : Int) :
    Except PyExn (List PrRecord) :=
  if disabledGuard c then .ok []
  else .ok (match getOpenPrsTry c w now with | .ok l => l | .error _ => [])

/-- Models the attribute lookup `datetime.timezone` on line 88 of
`github_collector.py`. The module imports `from datetime import datetime,
timedelta`, so the name `datetime` is the class `datetime.datetime`, which
has no attribute `timezone`: the lookup raises `AttributeError`. It is
evaluated before the function's `try:` block begins. -/
def datetimeClassTimezone : Except PyExn Unit :=
  .error (.attributeError "type object datetime has no attribute timezone")

/-- The filter of `get_recent_merges`:
`if pr.merged and pr.merged_at and pr.merged_at > yesterday`. -/
def mergeQualifies (yesterday : Int) (pr : MergedPull) : Bool :=
  pr.merged && (match pr.mergedAt with
    | some t => decide (yesterday < t)
    | none => false)

/-- The record `get_recent_merges` builds for one qualifying pull request. -/
def mergeRecordOf (repoName : String) (pr : MergedPull) : MergeRecord :=
  { number := pr.number
    title := pr.title
    url := pr.htmlUrl
    author := pr.user.getD "Unknown"
    mergedAt := pr.mergedAtStr
    repository := repoName
    mergedBy := pr.mergedBy.getD "Unknown" }

/-- The body of `get_recent_merges`'s `try:` block. -/
def getRecentMergesTry (c : GithubCollector) (w : World) (yesterday : Int) :
    Except PyExn (List MergeRecord) :=
  c.repos.foldlM (fun acc repoName =>
    let rn := repoName.trim
    if rn = "" then pure acc
    else do
      let repo ← w.getRepo rn
      let pulls ← repo.closedPulls
      pure (acc ++ (pulls.filter (mergeQualifies yesterday)).map (mergeRecordOf rn))) []

/-- `get_recent_merges`: guard, then line 88 (`yesterday = datetime.now(
datetime.timezone.utc) - timedelta(days=1)`, whose attribute lookup raises
and is not inside the `try:`), then the `try:` body with failures caught. -/
def getRecentMerges (c : GithubCollector) (w : World) (now : Int) :
    Except PyExn (List MergeRecord) :=
  if disabledGuard c then .ok []
  else do
    let _tz ← datetimeClassTimezone
    let yesterday := now - 1440
    pure (match getRecentMergesTry c w yesterday with | .ok l => l | .error _ => [])

/-- The fixed keyword set of `get_urgent_commits`. -/
def urgentKeywords : List String :=
  ["fix", "hotfix", "urgent", "emergency", "critical", "bug"]

/-- The record `get_urgent_commits` builds for one matching commit; its
per-commit `try/except` wraps field extraction that the data model makes
total, so it is the identity here. -/
def commitRecordOf (repoName : String) (cm : CommitInfo) : CommitRecord :=
  { sha := cm.sha.take 7
    message := (cm.message.splitOn "\n").headD ""
    url := cm.htmlUrl
    author := cm.authorLogin.getD cm.commitAuthorName
    date := cm.dateStr
    repository := repoName }

/-- The keyword filter: `any(keyword in message for keyword in
urgent_keywords)` on the lower-cased message. -/
def commitIsUrgent (cm : CommitInfo) : Bool :=
  urgentKeywords.any fun k => pyInStr k cm.message.toLower

/-- The body of `get_urgent_commits`'s `try:` block. -/
def getUrgentCommitsTry (c : GithubCollector) (w : World) (yesterday : Int) :
    Except PyExn (List CommitRecord) :=
  c.repos.foldlM (fun acc repoName =>
    let rn := repoName.trim
    if rn = "" then pure acc
    else do
      let repo ← w.getRepo rn
      let commits ← repo.commitsSince yesterday
      pure (acc ++ (commits.filter commitIsUrgent).map (commitRecordOf rn))) []

/-- `get_urgent_commits`: guard, a naive-local-time cutoff, then the
`try:` body with failures caught. -/
def getUrgentCommits (c : GithubCollector) (w : World) (now : Int) :
    Except PyExn (List CommitRecord) :=
  if disabledGuard c then .ok []
  else
    let yesterday := now - 1440
    .ok (match getUrgentCommitsTry c w yesterday with | .ok l => l | .error _ => [])

/-! ## The PR-analysis prompt (ai_summarizer.py `_build_pr_analysis_prompt`,
duplicated verbatim inside `analyze_pr` in github_collector.py) -/

namespace BedrockSummarizer

/-- The fixed opening of the PR-analysis prompt, through the blank line after
`Changed files:`. The `Description:` value models
`diff_data.get('body', 'No description provided.')`: the key `"body"` is
always present in the dictionaries this repository passes (set to `pr.body`
by `analyze_pr`), so Python's `dict.get` returns the stored value even when
it is `None` — which the f-string renders as the text `None`; the default
string is returned only for a missing key, which never occurs on this path. -/
def promptPreamble (d : DiffData) : String :=
  "You are a senior software engineer.\nSummarize this pull request in plain English.\nThen suggest 3-5 relevant unit test cases based on the logic in the diff.\n\nPull Request: "
    ++ d.title
    ++ "\nAuthor: " ++ d.user
    ++ "\nDescription: " ++ (match d.body with | some s => s | none => "None")
    ++ "\n\nChanged files:\n"

/-- The name/status/line-delta lines appended to the prompt for one
changed file. -/
def fileHeaderText (file : FileData) : String :=
  "\nFile: " ++ file.filename
    ++ "\nStatus: " ++ file.status
    ++ "\nChanges: +" ++ toString file.additions ++ " -" ++ toString file.deletions ++ " lines"

/-- The patch part appended after the header lines: the fenced patch when
`patch and len(patch) < 3000` (a `None` or empty patch is falsy), else the
fixed placeholder. -/
def patchBlock (patch : Option String) : String :=
  match patch with
  | some p =>
    if p.length ≠ 0 ∧ p.length < 3000 then "\n" ++ ("```\n" ++ p ++ "\n```") ++ "\n"
    else "\n" ++ "[Diff too large to include]" ++ "\n"
  | none => "\n" ++ "[Diff too large to include]" ++ "\n"

/-- The text appended to the prompt for one changed file. -/
def fileSection (file : FileData) : String :=
  fileHeaderText file ++ patchBlock file.patch

/-- `_build_pr_analysis_prompt(diff_data)`: the preamble, then the per-file
sections appended in order. -/
def buildPrAnalysisPrompt (d : DiffData) : String :=
  d.files.foldl (fun prompt file => prompt ++ fileSection file) (promptPreamble d)

end BedrockSummarizer

/-- The analysis prompt `analyze_pr` builds locally (github_collector.py
lines 206–228); the construction is textually identical to
`_build_pr_analysis_prompt` in ai_summarizer.py (lines 231–255). -/
def collectorPrAnalysisPrompt (d : DiffData) : String :=
  d.files.foldl (fun prompt file => prompt ++ BedrockSummarizer.fileSection file)
    (BedrockSummarizer.promptPreamble d)

theorem collectorPrAnalysisPrompt_eq (d : DiffData) :
    collectorPrAnalysisPrompt d = BedrockSummarizer.buildPrAnalysisPrompt d := rfl

/-- The fixed analysis text `analyze_pr` uses when `self.ai_summarizer`
is unset. -/
def placeholderAnalysis (repoName : String) (prNumber : Nat) (title : String) : String :=
  "PR Analysis for " ++ repoName ++ "#" ++ toString prNumber ++ ": " ++ title ++ "\n"
    ++ "AI analysis is currently unavailable.\n"
    ++ "Enable AI analysis by setting up AWS Bedrock integration.\n"

/-- The body of `analyze_pr`'s `try:` block: fetch the PR, assemble the
diff snapshot, build the (logging-only) prompt, pick the analysis text by
whether the AI collaborator is wired, and assemble the result record. -/
def analyzePrTry (c : GithubCollector) (w : World) (repoName : String) (prNumber : Nat) :
    Except PyExn PrAnalysisRecord := do
  let repo ← w.getRepo repoName
  let pr ← repo.getPull prNumber
  let files ← pr.files
  let diffData : DiffData :=
    { title := pr.title
      body := pr.body
      user := pr.user.getD "Unknown"
      createdAtDate := pr.createdAtDate
      files := files }
  let _prompt := collectorPrAnalysisPrompt diffData
  let analysisText :=
    match c.aiSummarizer with
    | some analyzeDiff => analyzeDiff diffData
    | none => placeholderAnalysis repoName prNumber pr.title
  pure
    { prNumber := prNumber
      repo := repoName
      title := diffData.title
      author := diffData.user
      analysis := analysisText
      url := pr.htmlUrl }

/-- `analyze_pr(repo_name, pr_number)`: the empty dictionary it returns when
the client is unset or the `try:` body fails is modelled as `none`. -/
def analyzePr (c : GithubCollector) (w : World) (repoName : String) (prNumber : Nat) :
    Option PrAnalysisRecord :=
  if c.client = none then none
  else match analyzePrTry c w repoName prNumber with
    | .ok r => some r
    | .error _ => none

/-- The body of `get_pr_analyses`'s `try:` block: analyze the first three
open PRs, keeping the entries whose repository name and number are truthy
and whose analysis is a non-empty dictionary. -/
def getPrAnalysesTry (c : GithubCollector) (w : World) (now : Int) :
    Except PyExn (List PrAnalysisRecord) := do
  let openPrs ← getOpenPrs c w now
  pure ((openPrs.take 3).foldl (fun acc pr =>
    if pr.repository ≠ "" ∧ pr.number ≠ 0 then
      match analyzePr c w pr.repository pr.number with
      | some a => acc ++ [a]
      | none => acc
    else acc) [])

/-- `get_pr_analyses()`: guard, then the `try:` body with failures caught. -/
def getPrAnalyses (c : GithubCollector) (w : World) (now : Int) :
    Except PyExn (List PrAnalysisRecord) :=
  if disabledGuard c then .ok []
  else .ok (match getPrAnalysesTry c w now with | .ok l => l | .error _ => [])

/-- Collector Output: `collect()`'s dictionary; `prAnalyses = none` models
the `pr_analyses` key being absent. -/
structure CollectorOutput where
  openPrs : List PrRecord
  recentMerges : List MergeRecord
  urgentCommits : List CommitRecord
  prAnalyses : Option (List PrAnalysisRecord)
deriving Repr

/-- `collect()`: builds the output dictionary (evaluating the three
collection calls in source order, so an uncaught exception in any of them
propagates), then adds `pr_analyses` only when `ENABLE_PR_ANALYSIS` is the
case-insensitive string `true`. -/
def collect (c : GithubCollector) (w : World) (now : Int) (env : Env) :
    Except PyExn CollectorOutput := do
  let o ← getOpenPrs c w now
  let m ← getRecentMerges c w now
  let u ← getUrgentCommits c w now
  if (env.enablePrAnalysis.getD "false").toLower = "true" then do
    let a ← getPrAnalyses c w now
    pure { openPrs := o, recentMerges := m, urgentCommits := u, prAnalyses := some a }
  else
    pure { openPrs := o, recentMerges := m, urgentCommits := u, prAnalyses := none }

/-! ## Data shapes consumed by the formatter and the summarizer
(tracker/database data is supplied externally; the structures mirror the
exact keys the code reads). -/

/-- A tracker ticket as rendered by the formatter (`key`/`summary`/`status`
are read by direct indexing, so they are total fields). -/
structure Ticket where
  key : String
  summary : String
  status : String
deriving DecidableEq, Repr

/-- A blocked task (`key`/`summary`/`assignee`). -/
structure BlockedTask where
  key : String
  summary : String
  assignee : String
deriving DecidableEq, Repr

/-- One individual status transition inside a status-change record; the
Python keys `from`/`to` are `fromStatus`/`toStatus` here. -/
structure Transition where
  fromStatus : String
  toStatus : String
  author : String
  time : String
deriving DecidableEq, Repr

/-- One status-change record: a ticket plus its list of transitions. -/
structure StatusChange where
  key : String
  summary : String
  status_changes : List Transition
deriving DecidableEq, Repr

/-- The tracker ("jira") dictionary, with the three keys the code reads
(each via `.get(key, [])`, so an absent key is an empty list). -/
structure JiraData where
  new_tickets : List Ticket := []
  blocked_tasks : List BlockedTask := []
  status_changes : List StatusChange := []
deriving DecidableEq, Repr

/-- An open PR as the formatter renders it (`reviewers` via `.get`, so an
absent key is the empty list). -/
structure FPullRequest where
  number : Nat
  title : String
  author : String
  reviewers : List String := []
deriving DecidableEq, Repr

/-- A merge record as the formatter renders it. -/
structure FMerge where
  number : Nat
  title : String
  author : String
deriving DecidableEq, Repr

/-- An urgent commit as the formatter renders it. -/
structure FCommit where
  sha : String
  message : String
  author : String
deriving DecidableEq, Repr

/-- A PR analysis as the formatter renders it: every key is read with
`.get`, so each field is optional (`pr_number` has no default and renders
as `None` when absent). -/
structure FPrAnalysis where
  pr_number : Option Nat := none
  repo : Option String := none
  title : Option String := none
  author : Option String := none
  analysis : Option String := none
  url : Option String := none
deriving DecidableEq, Repr

/-- The source-hosting ("github") dictionary as the formatter consumes it;
`pr_analyses = none` models the key being absent. -/
structure FGithubData where
  open_prs : List FPullRequest := []
  recent_merges : List FMerge := []
  urgent_commits : List FCommit := []
  pr_analyses : Option (List FPrAnalysis) := none
deriving DecidableEq, Repr

/-- The `activity_stats` sub-dictionary (each count via `.get(_, 0)`). -/
structure ActivityStats where
  weekly_prs : Option Nat := none
  weekly_tickets : Option Nat := none
  weekly_completed : Option Nat := none
deriving DecidableEq, Repr

/-- The `team_metrics` sub-dictionary. -/
structure TeamMetrics where
  member_count : Option Nat := none
  github_users : Option Nat := none
deriving DecidableEq, Repr

/-- The database dictionary; a `none` sub-object models the key being
absent or holding an empty (falsy) dictionary. -/
structure DbData where
  activity_stats : Option ActivityStats := none
  team_metrics : Option TeamMetrics := none
deriving DecidableEq, Repr

/-- The combined data dictionary handed to `format_daily_digest` and the
summarizer: a `none` entry models the key being absent (Python `data.get`
then yields the empty dictionary, which is falsy). -/
structure DigestData where
  jira : Option JiraData := none
  github : Option FGithubData := none
  database : Option DbData := none
deriving DecidableEq, Repr

/-- Python `any(jira_data.values())` for the tracker dictionary. -/
def jiraAnyValues (jd : JiraData) : Prop :=
  jd.new_tickets ≠ [] ∨ jd.blocked_tasks ≠ [] ∨ jd.status_changes ≠ []

instance : DecidablePred jiraAnyValues := fun jd => by
  unfold jiraAnyValues; infer_instance

/-- Python `any(github_data.values())` for the source-hosting dictionary
(the `pr_analyses` value participates only when the key is present). -/
def githubAnyValues (gd : FGithubData) : Prop :=
  gd.open_prs ≠ [] ∨ gd.recent_merges ≠ [] ∨ gd.urgent_commits ≠ []
    ∨ (match gd.pr_analyses with | some l => l ≠ [] | none => False)

instance : DecidablePred githubAnyValues := fun gd => by
  unfold githubAnyValues
  cases gd.pr_analyses <;> infer_instance

/-- Python `db_data and any(db_data.values())` for the database dictionary. -/
def dbAnyValues (db : DbData) : Prop :=
  db.activity_stats.isSome ∨ db.team_metrics.isSome

instance : DecidablePred dbAnyValues := fun db => by
  unfold dbAnyValues; infer_instance

/-- The quiet-day condition of `format_daily_digest` (line 99): both the
tracker and the source-hosting data are absent or all-empty; the database
data is not consulted. -/
def quietCondition (data : DigestData) : Prop :=
  (match data.jira with | none => True | some jd => ¬ jiraAnyValues jd)
    ∧ (match data.github with | none => True | some gd => ¬ githubAnyValues gd)

instance : DecidablePred quietCondition := fun data => by
  unfold quietCondition
  cases data.jira <;> cases data.github <;> infer_instance

/-! ## The Teams card model -/

/-- One `TextBlock` element: `none` models the key being absent from the
emitted JSON object. -/
structure TextBlockItem where
  text : String
  weight : Option String := none
  size : Option String := none
  wrap : Option Bool := none
  isSubtle : Option Bool := none
  spacing : Option String := none
deriving DecidableEq, Repr

/-- One body element: a `TextBlock` or an `ActionSet` holding a single
`Action.OpenUrl`. -/
inductive Block where
  | text (tb : TextBlockItem)
  | actionSet (title url : String)
deriving DecidableEq, Repr

/-- The whole message payload; the envelope fields are the fixed strings
of `format_daily_digest`'s base card. -/
structure TeamsCard where
  msgType : String
  contentType : String
  cardType : String
  schema : String
  version : String
  body : List Block
deriving DecidableEq, Repr

/-! ## TeamsFormatter sections -/

/-- One rendered new-ticket line. -/
def newTicketLine (t : Ticket) : Block :=
  .text { text := "• " ++ t.key ++ ": " ++ t.summary ++ " (" ++ t.status ++ ")"
          wrap := some true }

/-- The new-tickets part of the tracker section. -/
def newTicketsBlocks (new_tickets : List Ticket) : List Block :=
  if new_tickets ≠ [] then
    [.text { text := "📥 " ++ toString new_tickets.length ++ " new tickets were created yesterday:"
             wrap := some true }]
      ++ (new_tickets.take 5).map newTicketLine
      ++ (if new_tickets.length > 5 then
            [.text { text := "...and " ++ toString (new_tickets.length - 5) ++ " more new tickets"
                     isSubtle := some true, wrap := some true }]
          else [])
  else [.text { text := "No new tickets created yesterday.", wrap := some true }]

/-- One rendered blocked-task line. -/
def blockedTaskLine (t : BlockedTask) : Block :=
  .text { text := "• " ++ t.key ++ ": " ++ t.summary ++ " (Assigned to: " ++ t.assignee ++ ")"
          wrap := some true }

/-- The blocked-tasks part of the tracker section (no `else` branch). -/
def blockedTasksBlocks (blocked_tasks : List BlockedTask) : List Block :=
  if blocked_tasks ≠ [] then
    [.text { text := "⚠️ " ++ toString blocked_tasks.length ++ " tasks are currently blocked:"
             wrap := some true, spacing := some "Medium" }]
      ++ (blocked_tasks.take 5).map blockedTaskLine
      ++ (if blocked_tasks.length > 5 then
            [.text { text := "...and " ++ toString (blocked_tasks.length - 5) ++ " more blocked tasks"
                     isSubtle := some true, wrap := some true }]
          else [])
  else []

/-- A synthetic completed-task entry derived from a status transition. -/
structure CompletedEntry where
  key : String
  summary : String
  author : String
  time : String
deriving DecidableEq, Repr

/-- The derivation of completed tasks: every transition whose destination
is `Done`, `Closed` or `Resolved` becomes an entry carrying the parent
record's key/summary and the transition's author/time. -/
def completedOf (status_changes : List StatusChange) : List CompletedEntry :=
  status_changes.foldl (fun acc change =>
    acc ++ (change.status_changes.filter fun sc =>
        (["Done", "Closed", "Resolved"] : List String).contains sc.toStatus).map fun sc =>
      { key := change.key, summary := change.summary
        author := sc.author, time := sc.time }) []

/-- One rendered completed-task line. -/
def completedLine (t : CompletedEntry) : Block :=
  .text { text := "• " ++ t.key ++ ": " ++ t.summary ++ " (by " ++ t.author ++ ")"
          wrap := some true }

/-- The completed-tasks part of the tracker section. -/
def completedBlocks (status_changes : List StatusChange) : List Block :=
  let completed := completedOf status_changes
  if completed ≠ [] then
    [.text { text := "✅ " ++ toString completed.length ++ " tasks were completed yesterday:"
             wrap := some true, spacing := some "Medium" }]
      ++ (completed.take 5).map completedLine
      ++ (if completed.length > 5 then
            [.text { text := "...and " ++ toString (completed.length - 5) ++ " more completed tasks"
                     isSubtle := some true, wrap := some true }]
          else [])
  else []

/-- `_add_jira_section`. -/
def jiraSection (jd : JiraData) : List Block :=
  [.text { text := "🧩 Jira Updates", weight := some "Bolder", size := some "Medium"
           spacing := some "Medium" }]
    ++ newTicketsBlocks jd.new_tickets
    ++ blockedTasksBlocks jd.blocked_tasks
    ++ completedBlocks jd.status_changes

/-- The parenthetical reviewer suffix of an open-PR line. -/
def reviewerText (pr : FPullRequest) : String :=
  if pr.reviewers ≠ [] then
    " (Reviewers: " ++ String.intercalate ", " (pr.reviewers.take 2) ++ ")"
      ++ (if pr.reviewers.length > 2 then
            " +" ++ toString (pr.reviewers.length - 2) ++ " more"
          else "")
  else ""

/-- One rendered open-PR line. -/
def openPrLine (pr : FPullRequest) : Block :=
  .text { text := "• #" ++ toString pr.number ++ ": " ++ pr.title ++ " by " ++ pr.author
            ++ reviewerText pr
          wrap := some true }

/-- The open-PRs part of the source-hosting section. -/
def openPrsBlocks (open_prs : List FPullRequest) : List Block :=
  if open_prs ≠ [] then
    [.text { text := "🔄 " ++ toString open_prs.length ++ " open pull requests waiting for review:"
             wrap := some true }]
      ++ (open_prs.take 5).map openPrLine
      ++ (if open_prs.length > 5 then
            [.text { text := "...and " ++ toString (open_prs.length - 5) ++ " more open PRs"
                     isSubtle := some true, wrap := some true }]
          else [])
  else [.text { text := "No open pull requests waiting for review.", wrap := some true }]

/-- One rendered merge line. -/
def mergeLine (pr : FMerge) : Block :=
  .text { text := "• #" ++ toString pr.number ++ ": " ++ pr.title ++ " by " ++ pr.author
          wrap := some true }

/-- The recent-merges part of the source-hosting section (no block at all
when the list is empty). -/
def mergesBlocks (recent_merges : List FMerge) : List Block :=
  if recent_merges ≠ [] then
    [.text { text := "✅ " ++ toString recent_merges.length ++ " pull requests were merged yesterday:"
             wrap := some true, spacing := some "Medium" }]
      ++ (recent_merges.take 5).map mergeLine
      ++ (if recent_merges.length > 5 then
            [.text { text := "...and " ++ toString (recent_merges.length - 5) ++ " more merged PRs"
                     isSubtle := some true, wrap := some true }]
          else [])
  else []

/-- One rendered urgent-commit line. -/
def urgentLine (cm : FCommit) : Block :=
  .text { text := "• " ++ cm.sha ++ ": " ++ cm.message ++ " by " ++ cm.author
          wrap := some true }

/-- The urgent-commits part of the source-hosting section. -/
def urgentBlocks (urgent_commits : List FCommit) : List Block :=
  if urgent_commits ≠ [] then
    [.text { text := "🚨 " ++ toString urgent_commits.length ++ " urgent commits detected yesterday:"
             wrap := some true, spacing := some "Medium" }]
      ++ (urgent_commits.take 5).map urgentLine
      ++ (if urgent_commits.length > 5 then
            [.text { text := "...and " ++ toString (urgent_commits.length - 5) ++ " more urgent commits"
                     isSubtle := some true, wrap := some true }]
          else [])
  else []

/-- `_add_github_section`. -/
def githubSection (gd : FGithubData) : List Block :=
  [.text { text := "🛠️ GitHub Activity", weight := some "Bolder", size := some "Medium"
           spacing := some "Medium" }]
    ++ openPrsBlocks gd.open_prs
    ++ mergesBlocks gd.recent_merges
    ++ urgentBlocks gd.urgent_commits

/-- The truncation of an analysis text: the first 500 characters with an
ellipsis suffix when longer than 500 characters, else the full text. -/
def renderedAnalysisText (t : String) : String :=
  if t.length > 500 then t.take 500 ++ "..." else t

/-- The blocks rendered for one PR analysis: bold title, muted repo/author
line, separator, the (possibly truncated) analysis text, and an action
block when a URL is present. -/
def analysisBlocks (a : FPrAnalysis) : List Block :=
  [.text { text := "**PR #" ++ (match a.pr_number with | some n => toString n | none => "None")
             ++ ": " ++ a.title.getD "Untitled PR" ++ "**"
           weight := some "Bolder", wrap := some true, spacing := some "Medium" },
   .text { text := "Repository: " ++ a.repo.getD "" ++ " | Author: " ++ a.author.getD "Unknown"
           isSubtle := some true, wrap := some true },
   .text { text := "---", wrap := some true },
   .text { text := renderedAnalysisText (a.analysis.getD "No analysis available")
           wrap := some true }]
    ++ (if a.url.getD "" ≠ "" then [.actionSet "View Pull Request" (a.url.getD "")] else [])

/-- `_add_pr_analyses_section` (the empty-list branch returns right after
its fixed line, skipping the overflow note). -/
def prAnalysesSection (pr_analyses : List FPrAnalysis) : List Block :=
  [.text { text := "🔍 Pull Request Analyses", weight := some "Bolder", size := some "Medium"
           spacing := some "Medium" }]
    ++ (if pr_analyses = [] then
          [.text { text := "No PR analyses available.", wrap := some true }]
        else
          (pr_analyses.take 3).foldl (fun acc a => acc ++ analysisBlocks a) []
            ++ (if pr_analyses.length > 3 then
                  [.text { text := "...and " ++ toString (pr_analyses.length - 3) ++ " more PR analyses"
                           isSubtle := some true, wrap := some true, spacing := some "Small" }]
                else []))

/-- `_add_database_section`: nothing at all without a non-empty
`activity_stats`; the `team_metrics` line only when that sub-object is
present and non-empty. -/
def databaseSection (db : DbData) : List Block :=
  match db.activity_stats with
  | none => []
  | some stats =>
    [.text { text := "📊 Weekly Database Insights", weight := some "Bolder"
             size := some "Medium", spacing := some "Medium" },
     .text { text := "• " ++ toString (stats.weekly_prs.getD 0) ++ " PRs this week\n"
               ++ "• " ++ toString (stats.weekly_tickets.getD 0) ++ " tickets created\n"
               ++ "• " ++ toString (stats.weekly_completed.getD 0) ++ " tickets completed\n"
             wrap := some true }]
      ++ (match db.team_metrics with
          | some m =>
            [.text { text := "Team size: " ++ toString (m.member_count.getD 0)
                       ++ " members | " ++ toString (m.github_users.getD 0) ++ " using GitHub"
                     wrap := some true, isSubtle := some true }]
          | none => [])

/-- The fixed quiet-day block. -/
def quietDayBlock : Block :=
  .text { text := "No updates found for today. It's a quiet day! 😊"
          wrap := some true, spacing := some "Medium" }

/-- `TeamsFormatter.format_daily_digest(data, ai_summary)`. -/
def formatDailyDigest (teamName : String) (data : DigestData) (aiSummary : String) :
    TeamsCard :=
  { msgType := "message"
    contentType := "application/vnd.microsoft.card.adaptive"
    cardType := "AdaptiveCard"
    schema := "http://adaptivecards.io/schemas/adaptive-card.json"
    version := "1.2"
    body :=
      [.text { text := "🌅 Good morning, " ++ teamName ++ "!", weight := some "Bolder"
               size := some "Large", wrap := some true },
       .text { text := "Here's your daily project digest:", wrap := some true }]
        ++ (if aiSummary ≠ "" then
              [.text { text := "💡 AI Summary", weight := some "Bolder", size := some "Medium"
                       spacing := some "Medium" },
               .text { text := aiSummary, wrap := some true }]
            else [])
        ++ (match data.jira with
            | some jd => if jiraAnyValues jd then jiraSection jd else []
            | none => [])
        ++ (match data.github with
            | some gd =>
              if githubAnyValues gd then
                githubSection gd
                  ++ (match gd.pr_analyses with
                      | some l => if l ≠ [] then prAnalysesSection l else []
                      | none => [])
              else []
            | none => [])
        ++ (match data.database with
            | some db => if dbAnyValues db then databaseSection db else []
            | none => [])
        ++ (if quietCondition data then [quietDayBlock] else []) }

/-! ## BedrockSummarizer.generate_simple_summary -/

namespace BedrockSummarizer

/-- `generate_simple_summary(data, team_name)`: the deterministic non-AI
fallback. The `summary_parts[:-1]` / `summary_parts[-1]` / `summary_parts[0]`
indexings happen on a list known non-empty, so `dropLast`/`getLastD`/`headD`
render them faithfully. -/
def generateSimpleSummary (data : DigestData) (teamName : String) : String :=
  let jd := data.jira.getD {}
  let gd := data.github.getD {}
  let newTicketsCount := jd.new_tickets.length
  let blockedTasksCount := jd.blocked_tasks.length
  let openPrsCount := gd.open_prs.length
  let mergedPrsCount := gd.recent_merges.length
  let urgentCommitsCount := gd.urgent_commits.length
  let summaryParts :=
    (if newTicketsCount > 0 then
      [toString newTicketsCount ++ " new Jira tickets were created"] else [])
    ++ (if blockedTasksCount > 0 then
      [toString blockedTasksCount ++ " tasks are currently blocked"] else [])
    ++ (if openPrsCount > 0 then
      [toString openPrsCount ++ " pull requests are waiting for review"] else [])
    ++ (if mergedPrsCount > 0 then
      [toString mergedPrsCount ++ " pull requests were merged yesterday"] else [])
    ++ (if urgentCommitsCount > 0 then
      [toString urgentCommitsCount ++ " urgent commits were made yesterday"] else [])
  if summaryParts = [] then
    "Good morning, " ++ teamName
      ++ "! No significant updates or issues to report today. Everything appears to be running smoothly."
  else
    let summary := "Here's today's update for " ++ teamName ++ ": "
      ++ String.intercalate ", " summaryParts.dropLast
    let summary :=
      if summaryParts.length > 1 then
        summary ++ ", and " ++ summaryParts.getLastD "" ++ "."
      else
        summary ++ " " ++ summaryParts.headD "" ++ "."
    if blockedTasksCount > 0 then
      summary ++ " Priority should be given to resolving the "
        ++ toString blockedTasksCount ++ " blocked tasks."
    else if openPrsCount > 0 then
      summary ++ " Consider reviewing the open pull requests to keep development moving forward."
    else summary

end BedrockSummarizer

/-! ## Helper lemmas -/

theorem exceptBind_ok {α β : Type} (a : α) (f : α → Except PyExn β) :
    (Except.ok a >>= f) = f a := rfl

theorem exceptBind_error {α β : Type} (e : PyExn) (f : α → Except PyExn β) :
    ((Except.error e : Except PyExn α) >>= f) = .error e := rfl

/-- Two strings differ when the first is non-empty, is extended arbitrarily,
and starts with a character the second does not start with. -/
theorem string_append_ne_of_head_ne (a t b : String) (hne : a.data ≠ [])
    (h : a.data.head? ≠ b.data.head?) : a ++ t ≠ b := by
  intro he
  apply h
  have hd : (a ++ t).data = a.data ++ t.data := by simp
  have : (a ++ t).data.head? = b.data.head? := by rw [he]
  rw [hd, List.head?_append] at this
  cases ha : a.data with
  | nil => exact absurd ha hne
  | cons c cs =>
    rw [ha] at this
    simpa using this

/-! ## Claim theorems -/

/-- The collector state `__init__` produces when `GITHUB_TOKEN="token"` and
`GITHUB_REPOS="owner/repo"` are configured and the platform client builds:
the client is set and one repository is configured. -/
def configuredCollector : GithubCollector :=
  { githubToken := some "token"
    repos := ["owner/repo"]
    aiSummarizer := none
    client := some () }

theorem configuredCollector_not_disabled : ¬ disabledGuard configuredCollector := by
  decide

/-- C1: the claim that no exception escapes any public collector operation is
violated by the code: on a configured collector (token set, one repository),
`get_recent_merges` evaluates `datetime.now(datetime.timezone.utc)` on line 88
— outside its `try:` block — and the `datetime.timezone` attribute lookup
raises `AttributeError`, which escapes to the caller; `collect`, which calls
`get_recent_merges`, propagates the same exception for every configuration of
`ENABLE_PR_ANALYSIS`. -/
theorem getRecentMerges_exception_escapes (w : World) (now : Int) (env : Env) :
    getRecentMerges configuredCollector w now
        = .error (.attributeError "type object datetime has no attribute timezone")
      ∧ collect configuredCollector w now env
        = .error (.attributeError "type object datetime has no attribute timezone") :=
  ⟨rfl, rfl⟩

/-- C2: with no access token configured the client stays unset, and every
operation returns its neutral value without raising: the four list
operations return `ok []`, `analyze_pr` returns the empty dictionary, and
`collect` returns a dictionary whose three activity lists are empty. -/
theorem noToken_allOperationsNeutral (env : Env) (ctorOk : Bool)
    (hTok : env.githubToken = none) (w : World) (now : Int)
    (repoName : String) (prNumber : Nat) :
    getOpenPrs (mkGithubCollector env ctorOk) w now = .ok []
    ∧ getRecentMerges (mkGithubCollector env ctorOk) w now = .ok []
    ∧ getUrgentCommits (mkGithubCollector env ctorOk) w now = .ok []
    ∧ getPrAnalyses (mkGithubCollector env ctorOk) w now = .ok []
    ∧ analyzePr (mkGithubCollector env ctorOk) w repoName prNumber = none
    ∧ ∃ out, collect (mkGithubCollector env ctorOk) w now env = .ok out
        ∧ out.openPrs = [] ∧ out.recentMerges = [] ∧ out.urgentCommits = [] := by
  have hc : (mkGithubCollector env ctorOk).client = none := by
    simp [mkGithubCollector, hTok]
  have hg : disabledGuard (mkGithubCollector env ctorOk) := Or.inl hc
  have ho : getOpenPrs (mkGithubCollector env ctorOk) w now = .ok [] := by
    unfold getOpenPrs; rw [if_pos hg]
  have hm : getRecentMerges (mkGithubCollector env ctorOk) w now = .ok [] := by
    unfold getRecentMerges; rw [if_pos hg]
  have hu : getUrgentCommits (mkGithubCollector env ctorOk) w now = .ok [] := by
    unfold getUrgentCommits; rw [if_pos hg]
  have ha : getPrAnalyses (mkGithubCollector env ctorOk) w now = .ok [] := by
    unfold getPrAnalyses; rw [if_pos hg]
  refine ⟨ho, hm, hu, ha, ?_, ?_⟩
  · unfold analyzePr; rw [if_pos hc]
  · unfold collect
    rw [ho, hm, hu, ha, exceptBind_ok, exceptBind_ok, exceptBind_ok]
    by_cases he : (env.enablePrAnalysis.getD "false").toLower = "true"
    · rw [if_pos he, exceptBind_ok]
      exact ⟨_, rfl, rfl, rfl, rfl⟩
    · rw [if_neg he]
      exact ⟨_, rfl, rfl, rfl, rfl⟩

/-- A world that fails every platform call. -/
def offlineWorld : World := ⟨fun _ => .error (.apiError "offline")⟩

theorem noToken_allOperationsNeutral_witness :
    getOpenPrs (mkGithubCollector ⟨none, some "owner/repo", some "true"⟩ true) offlineWorld 0 = .ok []
    ∧ getRecentMerges (mkGithubCollector ⟨none, some "owner/repo", some "true"⟩ true) offlineWorld 0 = .ok []
    ∧ getUrgentCommits (mkGithubCollector ⟨none, some "owner/repo", some "true"⟩ true) offlineWorld 0 = .ok []
    ∧ getPrAnalyses (mkGithubCollector ⟨none, some "owner/repo", some "true"⟩ true) offlineWorld 0 = .ok []
    ∧ analyzePr (mkGithubCollector ⟨none, some "owner/repo", some "true"⟩ true) offlineWorld "owner/repo" 7 = none
    ∧ ∃ out, collect (mkGithubCollector ⟨none, some "owner/repo", some "true"⟩ true) offlineWorld 0
          ⟨none, some "owner/repo", some "true"⟩ = .ok out
        ∧ out.openPrs = [] ∧ out.recentMerges = [] ∧ out.urgentCommits = [] :=
  noToken_allOperationsNeutral ⟨none, some "owner/repo", some "true"⟩ true rfl
    offlineWorld 0 "owner/repo" 7

/-- A closed pull request whose merged flag is set and whose merge timestamp
is 2 hours (120 minutes) before the collection instant 100000. -/
def mergedTwoHoursAgo : MergedPull :=
  { number := 42, title := "Fix race condition", htmlUrl := "https://example.test/pr/42"
    user := some "alice", merged := true, mergedAt := some (100000 - 120)
    mergedAtStr := "2026-10-12 08:00", mergedBy := some "bob" }

/-- A world with exactly one repository whose closed-PR listing returns the
pull request merged two hours ago. -/
def recentMergeWorld : World :=
  ⟨fun rn =>
    if rn = "owner/repo" then
      .ok { openPulls := .ok []
            closedPulls := .ok [mergedTwoHoursAgo]
            commitsSince := fun _ => .ok []
            getPull := fun _ => .error (.apiError "not fetched") }
    else .error (.apiError "404")⟩

/-- C3: the claim that `get_recent_merges` returns the list of closed PRs
filtered by (merged ∧ has merge timestamp ∧ timestamp after now − 24h) is
violated by the code: the scanned PR merged 2 hours before now passes the
filter of line 102, but with the client configured the operation never
reaches that filter — the `datetime.timezone` attribute lookup on line 88
raises `AttributeError` first, so no list at all (in particular none
containing this PR) is returned. -/
theorem getRecentMerges_neverReturnsFilteredList :
    mergeQualifies (100000 - 1440) mergedTwoHoursAgo = true
    ∧ getRecentMerges configuredCollector recentMergeWorld 100000
        = .error (.attributeError "type object datetime has no attribute timezone")
    ∧ ∀ l : List MergeRecord,
        getRecentMerges configuredCollector recentMergeWorld 100000 ≠ .ok l := by
  refine ⟨by decide, rfl, ?_⟩
  intro l h
  rw [show getRecentMerges configuredCollector recentMergeWorld 100000
      = .error (.attributeError "type object datetime has no attribute timezone") from rfl] at h
  exact Except.noConfusion h

/-- The diff snapshot `analyze_pr` assembles for a pull request whose
description (`pr.body`) is `None`. -/
def diffNoBody : DiffData :=
  { title := "T", body := none, user := "alice", createdAtDate := "2026-10-01", files := [] }

set_option maxRecDepth 40000 in
/-- C5: the claim that an absent PR description renders as the default
message is violated by the code: `diff_data` always carries the key
`"body"` (set to `pr.body`), so `diff_data.get('body', 'No description
provided.')` returns the stored `None` and the f-string renders the line as
`Description: None` — in the prompt `analyze_pr` builds and equally in
`_build_pr_analysis_prompt`; the default text appears nowhere. -/
theorem descriptionLine_rendersNone :
    pyInStr "Description: None" (collectorPrAnalysisPrompt diffNoBody) = true
    ∧ pyInStr "Description: None" (BedrockSummarizer.buildPrAnalysisPrompt diffNoBody) = true
    ∧ pyInStr "No description provided." (collectorPrAnalysisPrompt diffNoBody) = false
    ∧ pyInStr "No description provided." (BedrockSummarizer.buildPrAnalysisPrompt diffNoBody) = false := by
  refine ⟨?_, ?_, ?_, ?_⟩ <;> decide

/-- C10: every constructed collector has `ai_summarizer = None` (and no
operation modifies the state), so every successful `analyze_pr` call takes
the non-AI branch: the returned record's analysis text is exactly the fixed
unavailability placeholder, and the collaborator's `analyze_pr_diff` is
never invoked. -/
theorem aiSummarizer_never_wired (env : Env) (ctorOk : Bool) :
    (mkGithubCollector env ctorOk).aiSummarizer = none
    ∧ ∀ (w : World) (repoName : String) (prNumber : Nat) (rec : PrAnalysisRecord),
        analyzePr (mkGithubCollector env ctorOk) w repoName prNumber = some rec →
        rec.analysis = placeholderAnalysis repoName prNumber rec.title := by
  refine ⟨rfl, ?_⟩
  intro w repoName prNumber rec h
  unfold analyzePr at h
  by_cases hc : (mkGithubCollector env ctorOk).client = none
  · rw [if_pos hc] at h
    exact Option.noConfusion h
  · rw [if_neg hc] at h
    rcases htry : analyzePrTry (mkGithubCollector env ctorOk) w repoName prNumber with e | record
    · rw [htry] at h
      exact Option.noConfusion h
    · rw [htry] at h
      have hrec : record = rec := by simpa using h
      subst hrec
      unfold analyzePrTry at htry
      rcases hrepo : w.getRepo repoName with e | repo
      · rw [hrepo, exceptBind_error] at htry
        exact Except.noConfusion htry
      · rw [hrepo, exceptBind_ok] at htry
        rcases hpull : repo.getPull prNumber with e | pr
        · rw [hpull, exceptBind_error] at htry
          exact Except.noConfusion htry
        · rw [hpull, exceptBind_ok] at htry
          rcases hfiles : pr.files with e | files
          · rw [hfiles, exceptBind_error] at htry
            exact Except.noConfusion htry
          · rw [hfiles, exceptBind_ok] at htry
            have : Except.ok (ε := PyExn)
                ({ prNumber := prNumber, repo := repoName, title := pr.title
                   author := pr.user.getD "Unknown"
                   analysis := placeholderAnalysis repoName prNumber pr.title
                   url := pr.htmlUrl } : PrAnalysisRecord) = Except.ok record := htry
            have hrec : record
                = { prNumber := prNumber, repo := repoName, title := pr.title
                    author := pr.user.getD "Unknown"
                    analysis := placeholderAnalysis repoName prNumber pr.title
                    url := pr.htmlUrl } := by
              cases this; rfl
            rw [hrec]

/-- The pull request detail used to exhibit a successful `analyze_pr` call. -/
def fixCrashPull : PullDetail :=
  { title := "Fix crash", body := none, user := some "alice"
    createdAtDate := "2026-10-01", htmlUrl := "https://example.test/pr/7"
    files := .ok [] }

/-- A world where repository `owner/repo` serves pull request 7. -/
def analyzeWorld : World :=
  ⟨fun rn =>
    if rn = "owner/repo" then
      .ok { openPulls := .ok []
            closedPulls := .ok []
            commitsSince := fun _ => .ok []
            getPull := fun n => if n = 7 then .ok fixCrashPull else .error (.apiError "404") }
    else .error (.apiError "404")⟩

theorem aiSummarizer_never_wired_witness :
    (mkGithubCollector ⟨some "t", some "owner/repo", none⟩ true).aiSummarizer = none
    ∧ ∃ rec, analyzePr (mkGithubCollector ⟨some "t", some "owner/repo", none⟩ true)
          analyzeWorld "owner/repo" 7 = some rec
        ∧ rec.analysis = placeholderAnalysis "owner/repo" 7 rec.title :=
  ⟨(aiSummarizer_never_wired ⟨some "t", some "owner/repo", none⟩ true).1,
    ⟨_, rfl,
      (aiSummarizer_never_wired ⟨some "t", some "owner/repo", none⟩ true).2
        analyzeWorld "owner/repo" 7 _ rfl⟩⟩

/-- Substring containment, stated structurally. -/
def containsStr (needle haystack : String) : Prop :=
  ∃ pre post, haystack = pre ++ (needle ++ post)

/-- C8: `generate_simple_summary` with every category count zero returns the
fixed greeting naming the team (beginning "Good morning, {team}!" and
containing "No significant updates"); with exactly 3 new tickets and all
other counts zero it returns a single-fragment sentence containing
"3 new Jira tickets were created" and ending with a period, with no
trailing comma-joined fragment and no priority line. -/
theorem simpleSummary_zeroAndThreeTickets (teamName : String) (data : DigestData) :
    ((data.jira.getD {}).new_tickets = [] → (data.jira.getD {}).blocked_tasks = [] →
     (data.github.getD {}).open_prs = [] → (data.github.getD {}).recent_merges = [] →
     (data.github.getD {}).urgent_commits = [] →
       BedrockSummarizer.generateSimpleSummary data teamName
         = "Good morning, " ++ teamName
           ++ "! No significant updates or issues to report today. Everything appears to be running smoothly."
       ∧ (∃ rest, BedrockSummarizer.generateSimpleSummary data teamName
           = "Good morning, " ++ teamName ++ "!" ++ rest)
       ∧ containsStr "No significant updates"
           (BedrockSummarizer.generateSimpleSummary data teamName))
    ∧ ((data.jira.getD {}).new_tickets.length = 3 → (data.jira.getD {}).blocked_tasks = [] →
     (data.github.getD {}).open_prs = [] → (data.github.getD {}).recent_merges = [] →
     (data.github.getD {}).urgent_commits = [] →
       BedrockSummarizer.generateSimpleSummary data teamName
         = "Here's today's update for " ++ teamName ++ ": " ++ " "
           ++ "3 new Jira tickets were created" ++ "."
       ∧ containsStr "3 new Jira tickets were created"
           (BedrockSummarizer.generateSimpleSummary data teamName)
       ∧ (∃ pre, BedrockSummarizer.generateSimpleSummary data teamName = pre ++ ".")) := by
  constructor
  · intro h1 h2 h3 h4 h5
    have hz : BedrockSummarizer.generateSimpleSummary data teamName
        = "Good morning, " ++ teamName
          ++ "! No significant updates or issues to report today. Everything appears to be running smoothly." := by
      simp [BedrockSummarizer.generateSimpleSummary, h1, h2, h3, h4, h5]
    refine ⟨hz, ?_, ?_⟩
    · refine ⟨" No significant updates or issues to report today. Everything appears to be running smoothly.", ?_⟩
      rw [hz]
      have hsplit : ("! No significant updates or issues to report today. Everything appears to be running smoothly." : String)
          = "!" ++ " No significant updates or issues to report today. Everything appears to be running smoothly." := by
        decide
      rw [hsplit]
      simp [String.append_assoc]
    · refine ⟨"Good morning, " ++ teamName ++ "! ",
        " or issues to report today. Everything appears to be running smoothly.", ?_⟩
      rw [hz]
      have hsplit : ("! No significant updates or issues to report today. Everything appears to be running smoothly." : String)
          = "! " ++ ("No significant updates"
            ++ " or issues to report today. Everything appears to be running smoothly.") := by
        decide
      rw [hsplit]
      simp [String.append_assoc]
  · intro h1 h2 h3 h4 h5
    have hs : BedrockSummarizer.generateSimpleSummary data teamName
        = "Here's today's update for " ++ teamName ++ ": " ++ " "
          ++ "3 new Jira tickets were created" ++ "." := by
      simp [BedrockSummarizer.generateSimpleSummary, h1, h2, h3, h4, h5,
        show toString (3 : Nat) = "3" from rfl,
        show String.intercalate ", " [] = "" from rfl,
        show ("3" ++ " new Jira tickets were created" : String)
          = "3 new Jira tickets were created" from by decide]
    refine ⟨hs, ?_, ?_⟩
    · refine ⟨"Here's today's update for " ++ teamName ++ ": " ++ " ", ".", ?_⟩
      rw [hs]
      simp [String.append_assoc]
    · exact ⟨"Here's today's update for " ++ teamName ++ ": " ++ " "
        ++ "3 new Jira tickets were created", hs⟩

/-- Three new tickets and nothing else. -/
def threeTicketsData : DigestData :=
  { jira := some { new_tickets :=
      [⟨"K-1", "s1", "Open"⟩, ⟨"K-2", "s2", "Open"⟩, ⟨"K-3", "s3", "Open"⟩] } }

theorem simpleSummary_zeroAndThreeTickets_witness :
    BedrockSummarizer.generateSimpleSummary {} "Alpha"
      = "Good morning, " ++ "Alpha"
        ++ "! No significant updates or issues to report today. Everything appears to be running smoothly."
    ∧ containsStr "3 new Jira tickets were created"
        (BedrockSummarizer.generateSimpleSummary threeTicketsData "Alpha")
    ∧ (∃ pre, BedrockSummarizer.generateSimpleSummary threeTicketsData "Alpha" = pre ++ ".") :=
  ⟨((simpleSummary_zeroAndThreeTickets "Alpha" {}).1 rfl rfl rfl rfl rfl).1,
   ((simpleSummary_zeroAndThreeTickets "Alpha" threeTicketsData).2 rfl rfl rfl rfl rfl).2.1,
   ((simpleSummary_zeroAndThreeTickets "Alpha" threeTicketsData).2 rfl rfl rfl rfl rfl).2.2⟩

/-- Membership in a left fold that appends block lists. -/
theorem mem_foldl_append {α β : Type} (g : α → List β) (l : List α) (init : List β) (x : β) :
    (x ∈ l.foldl (fun acc a => acc ++ g a) init) ↔ x ∈ init ∨ ∃ a ∈ l, x ∈ g a := by
  induction l generalizing init with
  | nil => simp
  | cons a as ih =>
    simp only [List.foldl_cons, ih, List.mem_append, List.mem_cons]
    constructor
    · rintro ((hx | hx) | ⟨b, hb, hx⟩)
      · exact Or.inl hx
      · exact Or.inr ⟨a, Or.inl rfl, hx⟩
      · exact Or.inr ⟨b, Or.inr hb, hx⟩
    · rintro (hx | ⟨b, hb | hb, hx⟩)
      · exact Or.inl (Or.inl hx)
      · exact Or.inl (Or.inr (hb ▸ hx))
      · exact Or.inr ⟨b, hb, hx⟩

/-- C7: in the PR-analyses section, each of the first three analyses is
rendered with its analysis text passed through the 500-character
truncation: text longer than 500 characters is cut to its first 500
characters plus an ellipsis (so the rendered block has length 503), and
text of at most 500 characters is rendered in full. -/
theorem prAnalyses_truncation (l : List FPrAnalysis) (a : FPrAnalysis) (t : String)
    (hmem : a ∈ l.take 3) (ht : a.analysis = some t) :
    Block.text { text := renderedAnalysisText t, wrap := some true } ∈ prAnalysesSection l
    ∧ (500 < t.length →
        renderedAnalysisText t = t.take 500 ++ "..."
        ∧ (t.take 500).length = 500
        ∧ (renderedAnalysisText t).length = 503)
    ∧ (t.length ≤ 500 → renderedAnalysisText t = t) := by
  refine ⟨?_, ?_, ?_⟩
  · have hl : l ≠ [] := by
      intro he
      rw [he] at hmem
      simp at hmem
    unfold prAnalysesSection
    rw [if_neg hl]
    apply List.mem_append_right
    apply List.mem_append_left
    rw [mem_foldl_append]
    refine Or.inr ⟨a, hmem, ?_⟩
    unfold analysisBlocks
    rw [ht]
    simp [Option.getD]
  · intro hlong
    have h1 : renderedAnalysisText t = t.take 500 ++ "..." := by
      unfold renderedAnalysisText
      rw [if_pos hlong]
    have h2 : (t.take 500).length = 500 := by
      have ha : (t.take 500).data = t.data.take 500 := by simp
      have hb : (t.take 500).length = (t.take 500).data.length := (String.length_data _).symm
      have hc : t.data.length = t.length := String.length_data t
      rw [hb, ha, List.length_take]
      omega
    refine ⟨h1, h2, ?_⟩
    rw [h1]
    simp only [String.length_append, h2]
    rfl
  · intro hshort
    unfold renderedAnalysisText
    rw [if_neg (by omega)]

/-- A 501-character analysis text. -/
def longAnalysis : String := String.mk (List.replicate 501 'a')

/-- A single analysis entry carrying the 501-character text. -/
def longAnalysisEntry : FPrAnalysis := { analysis := some longAnalysis }

theorem prAnalyses_truncation_witness :
    Block.text { text := renderedAnalysisText longAnalysis, wrap := some true }
        ∈ prAnalysesSection [longAnalysisEntry]
    ∧ (500 < longAnalysis.length →
        renderedAnalysisText longAnalysis = longAnalysis.take 500 ++ "..."
        ∧ (longAnalysis.take 500).length = 500
        ∧ (renderedAnalysisText longAnalysis).length = 503)
    ∧ (longAnalysis.length ≤ 500 → renderedAnalysisText longAnalysis = longAnalysis) :=
  prAnalyses_truncation [longAnalysisEntry] longAnalysisEntry longAnalysis
    (by simp [List.take]) rfl

/-- The truthiness-and-size condition under which a patch is included
verbatim: present, non-empty, and strictly shorter than 3000 characters. -/
def patchShown (patch : Option String) : Prop :=
  match patch with
  | some p => p.length ≠ 0 ∧ p.length < 3000
  | none => False

instance : DecidablePred patchShown := fun patch => by
  unfold patchShown; cases patch <;> infer_instance

/-- The concatenation of the per-file sections, in order. -/
def sectionsText : List FileData → String
  | [] => ""
  | f :: fs => BedrockSummarizer.fileSection f ++ sectionsText fs

theorem foldl_sections (l : List FileData) (init : String) :
    l.foldl (fun prompt file => prompt ++ BedrockSummarizer.fileSection file) init
      = init ++ sectionsText l := by
  induction l generalizing init with
  | nil => simp [sectionsText]
  | cons f fs ih => simp [sectionsText, ih, String.append_assoc]

theorem buildPrompt_eq_sections (d : DiffData) :
    BedrockSummarizer.buildPrAnalysisPrompt d
      = BedrockSummarizer.promptPreamble d ++ sectionsText d.files :=
  foldl_sections d.files _

theorem sectionsText_split {f : FileData} {l : List FileData} (h : f ∈ l) :
    ∃ s₁ s₂, sectionsText l = s₁ ++ (BedrockSummarizer.fileSection f ++ s₂) := by
  induction l with
  | nil => simp at h
  | cons b bs ih =>
    rcases List.mem_cons.mp h with hb | hb
    · refine ⟨"", sectionsText bs, ?_⟩
      rw [← hb]
      simp [sectionsText]
    · rcases ih hb with ⟨s₁, s₂, hs⟩
      refine ⟨BedrockSummarizer.fileSection b ++ s₁, s₂, ?_⟩
      simp [sectionsText, hs, String.append_assoc]

theorem patchBlock_not_shown {patch : Option String} (h : ¬ patchShown patch) :
    BedrockSummarizer.patchBlock patch
      = "\n" ++ "[Diff too large to include]" ++ "\n" := by
  cases patch with
  | none => rfl
  | some p =>
    have h' : ¬ (p.length ≠ 0 ∧ p.length < 3000) := h
    show (if p.length ≠ 0 ∧ p.length < 3000
        then "\n" ++ ("```\n" ++ p ++ "\n```") ++ "\n"
        else "\n" ++ "[Diff too large to include]" ++ "\n")
      = "\n" ++ "[Diff too large to include]" ++ "\n"
    exact if_neg h'

theorem patchBlock_shown {p : String} (h : patchShown (some p)) :
    BedrockSummarizer.patchBlock (some p)
      = "\n" ++ ("```\n" ++ p ++ "\n```") ++ "\n" := by
  have h' : p.length ≠ 0 ∧ p.length < 3000 := h
  show (if p.length ≠ 0 ∧ p.length < 3000
      then "\n" ++ ("```\n" ++ p ++ "\n```") ++ "\n"
      else "\n" ++ "[Diff too large to include]" ++ "\n")
    = "\n" ++ ("```\n" ++ p ++ "\n```") ++ "\n"
  exact if_pos h'

/-- C4 (amended): in the analysis prompt built by `analyze_pr` and by
`_build_pr_analysis_prompt`, a changed file's patch is included verbatim in
a fenced block exactly when it is present, non-empty and strictly shorter
than 3000 characters; otherwise — including a patch of exactly 3000
characters — the file's section carries the literal placeholder
`[Diff too large to include]` in its place. -/
theorem patchInclusion_3000Boundary (d : DiffData) (f : FileData) (hf : f ∈ d.files) :
    (¬ patchShown f.patch →
        BedrockSummarizer.fileSection f
          = BedrockSummarizer.fileHeaderText f
            ++ ("\n" ++ "[Diff too large to include]" ++ "\n")
        ∧ containsStr "[Diff too large to include]"
            (BedrockSummarizer.buildPrAnalysisPrompt d))
    ∧ (∀ p, f.patch = some p → patchShown f.patch →
        BedrockSummarizer.fileSection f
          = BedrockSummarizer.fileHeaderText f
            ++ ("\n" ++ ("```\n" ++ p ++ "\n```") ++ "\n")
        ∧ containsStr ("```\n" ++ p ++ "\n```")
            (BedrockSummarizer.buildPrAnalysisPrompt d)) := by
  obtain ⟨s₁, s₂, hsplit⟩ := sectionsText_split hf
  constructor
  · intro hns
    have hsec : BedrockSummarizer.fileSection f
        = BedrockSummarizer.fileHeaderText f
          ++ ("\n" ++ "[Diff too large to include]" ++ "\n") := by
      unfold BedrockSummarizer.fileSection
      rw [patchBlock_not_shown hns]
    refine ⟨hsec, ?_⟩
    refine ⟨BedrockSummarizer.promptPreamble d
        ++ (s₁ ++ (BedrockSummarizer.fileHeaderText f ++ "\n")), "\n" ++ s₂, ?_⟩
    rw [buildPrompt_eq_sections, hsplit, hsec]
    simp only [String.append_assoc]
  · intro p hp hshown
    rw [hp] at hshown
    have hsec : BedrockSummarizer.fileSection f
        = BedrockSummarizer.fileHeaderText f
          ++ ("\n" ++ ("```\n" ++ p ++ "\n```") ++ "\n") := by
      unfold BedrockSummarizer.fileSection
      rw [hp, patchBlock_shown hshown]
    refine ⟨hsec, ?_⟩
    refine ⟨BedrockSummarizer.promptPreamble d
        ++ (s₁ ++ (BedrockSummarizer.fileHeaderText f ++ "\n")), "\n" ++ s₂, ?_⟩
    rw [buildPrompt_eq_sections, hsplit, hsec]
    simp only [String.append_assoc]

/-- A patch of exactly 3000 characters. -/
def bigPatch : String := String.mk (List.replicate 3000 'a')

/-- A changed file whose patch has exactly 3000 characters. -/
def bigFile : FileData :=
  { filename := "core.py", status := "modified", additions := 10, deletions := 2
    patch := some bigPatch }

/-- A diff snapshot containing only that file. -/
def bigDiff : DiffData :=
  { title := "Big change", body := some "desc", user := "bob"
    createdAtDate := "2026-10-02", files := [bigFile] }

set_option maxRecDepth 40000 in
/-- C4 (counterexample): a present patch of exactly 3000 characters — "not
longer than 3000 characters" — is not included verbatim: its file section
carries the placeholder instead, and the fenced block holding the patch
appears nowhere in the prompt (the prompt is shorter than the fenced
block). -/
theorem patchExactly3000_notVerbatim :
    bigPatch.length = 3000
    ∧ BedrockSummarizer.fileSection bigFile
        = BedrockSummarizer.fileHeaderText bigFile
          ++ ("\n" ++ "[Diff too large to include]" ++ "\n")
    ∧ ¬ containsStr ("```\n" ++ bigPatch ++ "\n```")
        (BedrockSummarizer.buildPrAnalysisPrompt bigDiff) := by
  have hlen : bigPatch.length = 3000 := List.length_replicate 3000 'a'
  have hns : ¬ patchShown bigFile.patch := by
    unfold patchShown bigFile
    simp [hlen]
  have hsec : BedrockSummarizer.fileSection bigFile
      = BedrockSummarizer.fileHeaderText bigFile
        ++ ("\n" ++ "[Diff too large to include]" ++ "\n") := by
    unfold BedrockSummarizer.fileSection
    rw [patchBlock_not_shown hns]
  refine ⟨hlen, hsec, ?_⟩
  rintro ⟨pre, post, hcontained⟩
  have hPromptLen : (BedrockSummarizer.buildPrAnalysisPrompt bigDiff).length
      = (BedrockSummarizer.promptPreamble bigDiff).length
        + ((BedrockSummarizer.fileHeaderText bigFile).length
          + ("\n" ++ "[Diff too large to include]" ++ "\n" : String).length) := by
    rw [buildPrompt_eq_sections]
    show (BedrockSummarizer.promptPreamble bigDiff
        ++ sectionsText [bigFile]).length = _
    rw [show sectionsText [bigFile]
        = BedrockSummarizer.fileSection bigFile ++ "" from rfl, hsec]
    simp [String.length_append]
  have hPre : (BedrockSummarizer.promptPreamble bigDiff).length = 228 := by decide
  have hHdr : (BedrockSummarizer.fileHeaderText bigFile).length = 53 := by decide
  have hPlace : ("\n" ++ "[Diff too large to include]" ++ "\n" : String).length = 29 := by
    decide
  have hlenEq := congrArg String.length hcontained
  rw [hPromptLen, hPre, hHdr, hPlace] at hlenEq
  simp only [String.length_append, hlen] at hlenEq
  omega

/-- A changed file with a short patch, shown verbatim. -/
def smallFile : FileData :=
  { filename := "a.py", status := "added", additions := 1, deletions := 0
    patch := some "x = 1" }

/-- A diff snapshot containing only that file. -/
def smallDiff : DiffData :=
  { title := "Small change", body := some "d", user := "carol"
    createdAtDate := "2026-10-03", files := [smallFile] }

theorem patchInclusion_3000Boundary_witness :
    (¬ patchShown smallFile.patch →
        BedrockSummarizer.fileSection smallFile
          = BedrockSummarizer.fileHeaderText smallFile
            ++ ("\n" ++ "[Diff too large to include]" ++ "\n")
        ∧ containsStr "[Diff too large to include]"
            (BedrockSummarizer.buildPrAnalysisPrompt smallDiff))
    ∧ (∀ p, smallFile.patch = some p → patchShown smallFile.patch →
        BedrockSummarizer.fileSection smallFile
          = BedrockSummarizer.fileHeaderText smallFile
            ++ ("\n" ++ ("```\n" ++ p ++ "\n```") ++ "\n")
        ∧ containsStr ("```\n" ++ p ++ "\n```")
            (BedrockSummarizer.buildPrAnalysisPrompt smallDiff)) :=
  patchInclusion_3000Boundary smallDiff smallFile (by simp [smallDiff])

/-- Whether a rendered line begins with the three characters that open
every individually-rendered merge/open-PR line. -/
def startsMergeMark (s : String) : Bool := decide (s.data.take 3 = ['•', ' ', '#'])

/-- The counting predicate for individually-rendered merge lines. -/
def mergeMarked (b : Block) : Bool :=
  match b with
  | .text tb => startsMergeMark tb.text
  | .actionSet _ _ => false

theorem take3_append (l₁ l₂ : List Char) (h : 3 ≤ l₁.length) :
    (l₁ ++ l₂).take 3 = l₁.take 3 := by
  rw [List.take_append_eq_append_take, Nat.sub_eq_zero_of_le h, List.take_zero, List.append_nil]

theorem startsMergeMark_mergeMark (t : String) : startsMergeMark ("• #" ++ t) = true := by
  unfold startsMergeMark
  rw [show ("• #" ++ t).data = "• #".data ++ t.data by simp, take3_append]
  · decide
  · decide

theorem startsMergeMark_false_of_head (a t : String) (c : Char)
    (hc : a.data.head? = some c) (hcne : c ≠ '•') : startsMergeMark (a ++ t) = false := by
  unfold startsMergeMark
  rw [show (a ++ t).data = a.data ++ t.data by simp]
  cases ha : a.data with
  | nil => rw [ha] at hc; exact absurd hc (by simp)
  | cons d ds =>
    rw [ha] at hc
    have hdc : d = c := by simpa using hc
    subst hdc
    apply decide_eq_false
    intro h
    rw [List.cons_append, List.take_cons (by omega)] at h
    exact hcne (List.cons.inj h).1

/-- A digest data dictionary carrying only a recent-merges list. -/
def mergeOnlyData (l : List FMerge) : DigestData :=
  { github := some { recent_merges := l } }

def mergedOverflowLine (k : Nat) : Block :=
  Block.text { text := "...and " ++ toString k ++ " more merged PRs",
               isSubtle := some true, wrap := some true }

def digestHeaderLine (teamName : String) : Block :=
  Block.text { text := "🌅 Good morning, " ++ teamName ++ "!",
               weight := some "Bolder", size := some "Large", wrap := some true }

def digestSubLine : Block :=
  Block.text { text := "Here's your daily project digest:", wrap := some true }

def githubHeaderLine : Block :=
  Block.text { text := "🛠️ GitHub Activity", weight := some "Bolder",
               size := some "Medium", spacing := some "Medium" }

def noOpenPrsLine : Block :=
  Block.text { text := "No open pull requests waiting for review.", wrap := some true }

def mergesCountLine (n : Nat) : Block :=
  Block.text { text := "✅ " ++ toString n ++ " pull requests were merged yesterday:",
               wrap := some true, spacing := some "Medium" }

/-- C9: for any Merge Record list of length N (0 ≤ N ≤ 10) supplied as the
github `recent_merges` list, the payload renders exactly `min(N, 5)`
individual merge lines (blocks whose text begins with the bullet-number
mark), and the merged-PRs overflow line appears if and only if N > 5. -/
theorem mergesRenderCount (teamName : String) (l : List FMerge) (hlen : l.length ≤ 10) :
    ((formatDailyDigest teamName (mergeOnlyData l) "").body.countP mergeMarked
        = min l.length 5)
    ∧ ((∃ k, mergedOverflowLine k ∈ (formatDailyDigest teamName (mergeOnlyData l) "").body)
        ↔ 5 < l.length) := by
  have hHdr : startsMergeMark ("🌅 Good morning, " ++ teamName ++ "!") = false := by
    rw [String.append_assoc]
    exact startsMergeMark_false_of_head _ _ '🌅' (by decide) (by decide)
  by_cases hl : l = []
  · subst hl
    constructor
    · simp [formatDailyDigest, mergeOnlyData, githubAnyValues, quietCondition,
        jiraAnyValues, dbAnyValues, quietDayBlock, List.countP_cons, mergeMarked, hHdr]
      exact ⟨by decide, by decide⟩
    · simp [formatDailyDigest, mergeOnlyData, githubAnyValues, quietCondition,
        jiraAnyValues, dbAnyValues, quietDayBlock, mergedOverflowLine]
  · have hbody : (formatDailyDigest teamName (mergeOnlyData l) "").body
        = [digestHeaderLine teamName, digestSubLine, githubHeaderLine, noOpenPrsLine,
           mergesCountLine l.length]
          ++ (l.take 5).map mergeLine
          ++ (if l.length > 5 then [mergedOverflowLine (l.length - 5)] else []) := by
      simp [formatDailyDigest, mergeOnlyData, githubAnyValues, quietCondition,
        jiraAnyValues, githubSection, openPrsBlocks, mergesBlocks, urgentBlocks, hl,
        digestHeaderLine, digestSubLine, githubHeaderLine, noOpenPrsLine,
        mergesCountLine, mergedOverflowLine]
    have hCnt : startsMergeMark ("✅ " ++ toString l.length
        ++ " pull requests were merged yesterday:") = false := by
      rw [String.append_assoc]
      exact startsMergeMark_false_of_head _ _ '✅' (by decide) (by decide)
    have hOvf : startsMergeMark ("...and " ++ toString (l.length - 5)
        ++ " more merged PRs") = false := by
      rw [String.append_assoc]
      exact startsMergeMark_false_of_head _ _ '.' (by decide) (by decide)
    have hSub : startsMergeMark "Here's your daily project digest:" = false := by decide
    have hGh : startsMergeMark "🛠️ GitHub Activity" = false := by decide
    have hNoOpen : startsMergeMark "No open pull requests waiting for review." = false := by
      decide
    have hmap : List.countP mergeMarked (List.take 5 (List.map mergeLine l))
        = min 5 l.length := by
      have h1 : List.countP mergeMarked (List.take 5 (List.map mergeLine l))
          = (List.take 5 (List.map mergeLine l)).length := by
        rw [List.countP_eq_length]
        intro b hb
        have hb' := List.mem_of_mem_take hb
        simp only [List.mem_map] at hb'
        obtain ⟨m, _, hbm⟩ := hb'
        subst hbm
        show startsMergeMark _ = true
        simp only [mergeLine]
        rw [String.append_assoc, String.append_assoc, String.append_assoc]
        exact startsMergeMark_mergeMark _
      rw [h1, List.length_take, List.length_map]
    by_cases h5 : 5 < l.length
    · constructor
      · rw [hbody]
        simp [List.countP_append, List.countP_cons, mergeMarked, digestHeaderLine,
          digestSubLine, githubHeaderLine, noOpenPrsLine, mergesCountLine, mergedOverflowLine,
          hHdr, hCnt, hOvf, hSub, hGh, hNoOpen, hmap, List.length_take,
          show l.length > 5 from h5]
        omega
      · exact Iff.intro (fun _ => h5)
          (fun _ => ⟨l.length - 5, by rw [hbody]; simp [show l.length > 5 from h5]⟩)
    · constructor
      · rw [hbody]
        simp [List.countP_append, List.countP_cons, mergeMarked, digestHeaderLine,
          digestSubLine, githubHeaderLine, noOpenPrsLine, mergesCountLine, mergedOverflowLine,
          hHdr, hCnt, hSub, hGh, hNoOpen, hmap, List.length_take,
          show ¬ l.length > 5 from h5]
        omega
      · constructor
        · rintro ⟨k, hk⟩
          exfalso
          rw [hbody] at hk
          simp [show ¬ l.length > 5 from h5, mergedOverflowLine, digestHeaderLine,
            digestSubLine, githubHeaderLine, noOpenPrsLine, mergesCountLine,
            mergeLine] at hk
          have hb' := List.mem_of_mem_take hk
          simp [List.mem_map, mergeLine] at hb'
        · intro h
          exact absurd h h5

/-- Seven merge records. -/
def sevenMerges : List FMerge :=
  [⟨1, "t1", "a"⟩, ⟨2, "t2", "a"⟩, ⟨3, "t3", "a"⟩, ⟨4, "t4", "a"⟩,
   ⟨5, "t5", "a"⟩, ⟨6, "t6", "a"⟩, ⟨7, "t7", "a"⟩]

theorem mergesRenderCount_witness :
    ((formatDailyDigest "Team" (mergeOnlyData sevenMerges) "").body.countP mergeMarked
        = min sevenMerges.length 5)
    ∧ ((∃ k, mergedOverflowLine k
          ∈ (formatDailyDigest "Team" (mergeOnlyData sevenMerges) "").body)
        ↔ 5 < sevenMerges.length) :=
  mergesRenderCount "Team" sevenMerges (by decide)

theorem quietText_ne_blockedCount (n : Nat) :
    ¬ ("No updates found for today. It's a quiet day! 😊"
        = "⚠️ " ++ toString n ++ " tasks are currently blocked:") := by
  intro h
  have h' := h.symm
  rw [String.append_assoc] at h'
  exact string_append_ne_of_head_ne _ _ _ (by decide) (by decide) h'

theorem quietText_ne_completedCount (n : Nat) :
    ¬ ("No updates found for today. It's a quiet day! 😊"
        = "✅ " ++ toString n ++ " tasks were completed yesterday:") := by
  intro h
  have h' := h.symm
  rw [String.append_assoc] at h'
  exact string_append_ne_of_head_ne _ _ _ (by decide) (by decide) h'

theorem quietText_ne_mergesCount (n : Nat) :
    ¬ ("No updates found for today. It's a quiet day! 😊"
        = "✅ " ++ toString n ++ " pull requests were merged yesterday:") := by
  intro h
  have h' := h.symm
  rw [String.append_assoc] at h'
  exact string_append_ne_of_head_ne _ _ _ (by decide) (by decide) h'

theorem quietText_ne_urgentCount (n : Nat) :
    ¬ ("No updates found for today. It's a quiet day! 😊"
        = "🚨 " ++ toString n ++ " urgent commits detected yesterday:") := by
  intro h
  have h' := h.symm
  rw [String.append_assoc] at h'
  exact string_append_ne_of_head_ne _ _ _ (by decide) (by decide) h'

theorem newTicketLine_ne_quiet (t : Ticket) : newTicketLine t ≠ quietDayBlock := by
  simp [newTicketLine, quietDayBlock]

theorem blockedTaskLine_ne_quiet (t : BlockedTask) : blockedTaskLine t ≠ quietDayBlock := by
  simp [blockedTaskLine, quietDayBlock]

theorem completedLine_ne_quiet (t : CompletedEntry) : completedLine t ≠ quietDayBlock := by
  simp [completedLine, quietDayBlock]

theorem openPrLine_ne_quiet (pr : FPullRequest) : openPrLine pr ≠ quietDayBlock := by
  simp [openPrLine, quietDayBlock]

theorem mergeLine_ne_quiet (pr : FMerge) : mergeLine pr ≠ quietDayBlock := by
  simp [mergeLine, quietDayBlock]

theorem urgentLine_ne_quiet (cm : FCommit) : urgentLine cm ≠ quietDayBlock := by
  simp [urgentLine, quietDayBlock]

theorem quiet_notin_take_map {α : Type} (f : α → Block) (l : List α) (n : Nat)
    (h : ∀ x, f x ≠ quietDayBlock) : quietDayBlock ∉ List.take n (List.map f l) := by
  intro hmem
  have hm := List.mem_of_mem_take hmem
  simp only [List.mem_map] at hm
  obtain ⟨x, _, hx⟩ := hm
  exact h x hx

theorem quiet_notin_jiraSection (jd : JiraData) : quietDayBlock ∉ jiraSection jd := by
  intro hmem
  simp only [jiraSection, newTicketsBlocks, blockedTasksBlocks, completedBlocks,
    List.mem_append, List.mem_cons] at hmem
  split_ifs at hmem <;>
    simp [quietDayBlock, -List.map_take, List.mem_map, newTicketLine, blockedTaskLine,
      completedLine, quietText_ne_blockedCount, quietText_ne_completedCount] at hmem

theorem quiet_notin_githubSection (gd : FGithubData) : quietDayBlock ∉ githubSection gd := by
  intro hmem
  simp only [githubSection, openPrsBlocks, mergesBlocks, urgentBlocks,
    List.mem_append, List.mem_cons] at hmem
  split_ifs at hmem <;>
    simp [quietDayBlock, -List.map_take, List.mem_map, openPrLine, mergeLine, urgentLine,
      quietText_ne_mergesCount, quietText_ne_urgentCount] at hmem

theorem quiet_notin_analysisBlocks (a : FPrAnalysis) : quietDayBlock ∉ analysisBlocks a := by
  intro hmem
  unfold analysisBlocks at hmem
  split_ifs at hmem <;> simp [quietDayBlock, List.mem_cons] at hmem

theorem quiet_notin_prAnalysesSection (lp : List FPrAnalysis) :
    quietDayBlock ∉ prAnalysesSection lp := by
  intro hmem
  unfold prAnalysesSection at hmem
  rcases List.mem_append.mp hmem with h | h
  · simp [quietDayBlock] at h
  · by_cases hlp : lp = []
    · rw [if_pos hlp] at h
      simp [quietDayBlock] at h
    · rw [if_neg hlp] at h
      rcases List.mem_append.mp h with h2 | h2
      · rw [mem_foldl_append] at h2
        rcases h2 with h3 | ⟨a, _, h3⟩
        · simp at h3
        · exact quiet_notin_analysisBlocks a h3
      · split_ifs at h2 <;> simp [quietDayBlock] at h2

theorem quiet_notin_databaseSection (db : DbData) : quietDayBlock ∉ databaseSection db := by
  intro hmem
  unfold databaseSection at hmem
  rcases hstats : db.activity_stats with _ | stats
  · rw [hstats] at hmem
    simp at hmem
  · rw [hstats] at hmem
    rcases hm : db.team_metrics with _ | m <;> rw [hm] at hmem <;>
      simp [quietDayBlock, List.mem_cons] at hmem

/-- Non-empty weekly activity stats. -/
def dbOnlyStats : ActivityStats :=
  { weekly_prs := some 4, weekly_tickets := some 2, weekly_completed := some 1 }

/-- Digest data with only database activity stats present. -/
def dbOnlyData : DigestData :=
  { database := some { activity_stats := some dbOnlyStats } }

/-- The Weekly Database Insights section header block. -/
def dbHeaderLine : Block :=
  Block.text { text := "📊 Weekly Database Insights", weight := some "Bolder",
               size := some "Medium", spacing := some "Medium" }

/-- C6: `format_daily_digest` appends the fixed quiet-day block if and only
if both the tracker ("jira") data and the source-hosting ("github") data are
absent or all-empty — independent of the database data; in particular, with
empty tracker and source-hosting data but non-empty database
`activity_stats`, the payload contains both the Weekly Database Insights
header and the quiet-day block. -/
theorem quietDay_iff_trackerAndGithubEmpty :
    (∀ (teamName aiSummary : String) (data : DigestData),
        (quietDayBlock ∈ (formatDailyDigest teamName data aiSummary).body
          ↔ quietCondition data))
    ∧ quietDayBlock ∈ (formatDailyDigest "Team" dbOnlyData "").body
    ∧ dbHeaderLine ∈ (formatDailyDigest "Team" dbOnlyData "").body := by
  refine ⟨?_, ?_, ?_⟩
  · intro teamName aiSummary data
    constructor
    · intro hmem
      by_contra hq
      simp only [formatDailyDigest, List.mem_append] at hmem
      rcases hmem with ((((h1 | h2) | h3) | h4) | h5) | h6
      · simp [quietDayBlock] at h1
      · split_ifs at h2 <;> simp [quietDayBlock] at h2
      · rcases hj : data.jira with _ | jd
        · rw [hj] at h3
          exact absurd h3 (List.not_mem_nil _)
        · rw [hj] at h3
          have h3' : quietDayBlock ∈ (if jiraAnyValues jd then jiraSection jd else []) := h3
          split_ifs at h3' with hcond
          · exact quiet_notin_jiraSection jd h3'
          · simp at h3'
      · rcases hg : data.github with _ | gd
        · rw [hg] at h4
          exact absurd h4 (List.not_mem_nil _)
        · rw [hg] at h4
          have h4' : quietDayBlock ∈ (if githubAnyValues gd then
              githubSection gd ++ (match gd.pr_analyses with
                | some l => if l ≠ [] then prAnalysesSection l else []
                | none => []) else []) := h4
          split_ifs at h4' with hcond
          · rcases List.mem_append.mp h4' with h4a | h4b
            · exact quiet_notin_githubSection gd h4a
            · rcases hpa : gd.pr_analyses with _ | lp
              · rw [hpa] at h4b
                exact absurd h4b (List.not_mem_nil _)
              · rw [hpa] at h4b
                have h4b' : quietDayBlock ∈ (if lp ≠ [] then prAnalysesSection lp else []) := h4b
                split_ifs at h4b'
                · exact quiet_notin_prAnalysesSection lp h4b'
                · simp at h4b'
          · simp at h4'
      · rcases hd : data.database with _ | db
        · rw [hd] at h5
          exact absurd h5 (List.not_mem_nil _)
        · rw [hd] at h5
          have h5' : quietDayBlock ∈ (if dbAnyValues db then databaseSection db else []) := h5
          split_ifs at h5'
          · exact quiet_notin_databaseSection db h5'
          · simp at h5'
      · rw [if_neg hq] at h6
        simp at h6
    · intro hq
      simp only [formatDailyDigest, List.mem_append]
      right
      rw [if_pos hq]
      simp
  · decide
  · decide

end DailyDigest
